import Mathlib

/-
Shallow embedding of vectordb_bench/backend/clients/milvus/config.py
(and the pieces of vectordb_bench/backend/clients/api.py it relies on,
which are not part of this slice and are therefore modelled from the
design document where noted).

Python dictionaries rendered by the config classes are embedded as
association lists of (key, Value) pairs in literal order; pydantic
construction is embedded as functions taking an Option for every
field a caller may supply and returning Except ConfigError.
-/

namespace Milvus

/-- Modelled from the spec: the Distance Metric enumeration is declared in
the shared api module, which is outside this slice. It is a closed,
string-valued enumeration holding at minimum Euclidean/L2, inner product
and cosine; comparing a member against a raw string compares the wire
string (string-valued enum semantics). -/
inductive MetricType where
  | L2
  | IP
  | COSINE
deriving DecidableEq, BEq, Repr

def MetricType.value : MetricType → String
  | .L2 => "L2"
  | .IP => "IP"
  | .COSINE => "COSINE"

/-- Modelled from the spec: the Index Family enumeration is declared in the
shared api module, which is outside this slice. It is a closed,
string-valued enumeration of every index family the harness knows about,
including families served by other backends (represented here by the
ES_HNSW member); the registry contract requires lookup of such an
unregistered family to fail. -/
inductive IndexType where
  | AUTOINDEX
  | HNSW
  | DISKANN
  | IVFFlat
  | IVFSQ8
  | Flat
  | GPU_IVF_FLAT
  | GPU_IVF_PQ
  | GPU_CAGRA
  | GPU_BRUTE_FORCE
  | ES_HNSW
deriving DecidableEq, BEq, Repr

def IndexType.value : IndexType → String
  | .AUTOINDEX => "AUTOINDEX"
  | .HNSW => "HNSW"
  | .DISKANN => "DISKANN"
  | .IVFFlat => "IVF_FLAT"
  | .IVFSQ8 => "IVF_SQ8"
  | .Flat => "Flat"
  | .GPU_IVF_FLAT => "GPU_IVF_FLAT"
  | .GPU_IVF_PQ => "GPU_IVF_PQ"
  | .GPU_CAGRA => "GPU_CAGRA"
  | .GPU_BRUTE_FORCE => "GPU_BRUTE_FORCE"
  | .ES_HNSW => "hnsw"

/-- Values appearing in the rendered parameter dictionaries: Python str,
int, float (embedded as rationals; no arithmetic is performed on them),
None, and nested dicts. -/
inductive Value where
  | str (s : String)
  | int (n : Int)
  | rat (q : Rat)
  | null
  | dict (d : List (String × Value))

/-- A Python int-or-None field rendered into a dict. -/
def Value.ofOptionInt : Option Int → Value
  | none => Value.null
  | some n => Value.int n

/-- A Python float-or-None field rendered into a dict. -/
def Value.ofOptionRat : Option Rat → Value
  | none => Value.null
  | some q => Value.rat q

/-- Lookup in an embedded Python dict (keys are unique in every literal
this file builds). -/
def listLookup (k : String) : List (String × Value) → Option Value
  | [] => none
  | (k2, v) :: rest => if k2 = k then some v else listLookup k rest

/-- The keys of an embedded dict, in insertion order. -/
def dictKeys (d : List (String × Value)) : List String := d.map Prod.fst

/-- The nested params dict of a rendered payload ([] when the payload has
no params key). -/
def paramsOf (d : List (String × Value)) : List (String × Value) :=
  match listLookup "params" d with
  | some (Value.dict pd) => pd
  | _ => []

/-- The keys of the nested params dict of a rendered payload. -/
def paramsKeys (d : List (String × Value)) : List String := dictKeys (paramsOf d)

/-- The error kinds of the error-handling taxonomy: construction and lookup
failures surfaced by the embedded constructors and registry. -/
inductive ConfigError where
  | validationError (msg : String)
  | missingRequiredField (field : String)
  | notSupported (tag : String)
deriving DecidableEq, Repr

/-- pydantic SecretStr: a wrapper around a raw string; its truthiness is
its length (SecretStr defines a length operation, used both by the
not-empty validator and by Python truthiness). -/
structure SecretStr where
  secret : String
deriving DecidableEq, Repr

def SecretStr.get_secret_value (s : SecretStr) : String := s.secret

/-- Modelled from the spec: DBConfig.common_short_configs(), declared in
the shared api module outside this slice — the shared common-field set
whose members are exempt from the not-empty rule. It does not contain
the endpoint field uri. -/
def common_short_configs : List String := ["version", "note", "db_label"]

/-- Modelled from the spec: DBConfig.common_long_configs(), declared in
the shared api module outside this slice; also exempt from the not-empty
rule and not containing uri. -/
def common_long_configs : List String := []

/-- The not_empty_field validator of MilvusConfig, per supplied field:
fields in the common sets or in [user, password] always pass; any other
field whose value is a str or SecretStr of length 0 is rejected.
strLen is some (length) when the value is str/SecretStr-like, none
otherwise. Returns true when the field passes. -/
def not_empty_field (name : String) (strLen : Option Nat) : Bool :=
  if common_short_configs.contains name || common_long_configs.contains name
      || (["user", "password"] : List String).contains name then
    true
  else
    match strLen with
    | some 0 => false
    | _ => true

/-- MilvusConfig: the connection configuration (uri endpoint, optional
user and password credentials). -/
structure MilvusConfig where
  uri : SecretStr := ⟨"http://localhost:19530"⟩
  user : Option String := none
  password : Option SecretStr := none
deriving DecidableEq, Repr

/-- pydantic construction of MilvusConfig: each argument is some v when
the caller supplied the field and none when omitted (defaults apply).
The not_empty_field validator runs on every supplied field; credential
fields are exempt, so only a supplied empty uri can fail. -/
def MilvusConfig.construct (uri : Option String) (user : Option (Option String))
    (password : Option (Option String)) : Except ConfigError MilvusConfig :=
  let uriV : String := uri.getD "http://localhost:19530"
  if uri.isSome && !(not_empty_field "uri" (some uriV.length)) then
    Except.error (ConfigError.validationError "Empty string!")
  else if (user.getD none).isSome
      && !(not_empty_field "user" (some ((user.getD none).getD "").length)) then
    Except.error (ConfigError.validationError "Empty string!")
  else if (password.getD none).isSome
      && !(not_empty_field "password" (some (((password.getD none).getD "").length))) then
    Except.error (ConfigError.validationError "Empty string!")
  else
    Except.ok { uri := ⟨uriV⟩, user := user.getD none,
                password := (password.getD none).map SecretStr.mk }

/-- MilvusConfig.to_dict: uri is unwrapped to its raw secret value; user
is passed through when truthy (non-empty) and collapses to None
otherwise; password is unwrapped when truthy (SecretStr truthiness is
nonzero length) and collapses to None otherwise. -/
def MilvusConfig.to_dict (c : MilvusConfig) : List (String × Value) :=
  [("uri", Value.str c.uri.get_secret_value),
   ("user",
     match c.user with
     | some s => if s.length == 0 then Value.null else Value.str s
     | none => Value.null),
   ("password",
     match c.password with
     | some p => if p.secret.length == 0 then Value.null
                 else Value.str p.get_secret_value
     | none => Value.null)]

/-- MilvusIndexConfig.is_gpu_index: true iff the family tag is one of the
four GPU-accelerated families. -/
def is_gpu_index (index : IndexType) : Bool :=
  [IndexType.GPU_CAGRA, IndexType.GPU_IVF_FLAT,
   IndexType.GPU_IVF_PQ, IndexType.GPU_BRUTE_FORCE].contains index

/-- MilvusIndexConfig.parse_metric, shared by every variant whose
metric_type field is an optional MetricType: an unset metric yields the
empty string; a cosine metric on a GPU family is forced to L2; otherwise
the metric wire value is returned. -/
def parse_metric (index : IndexType) (metric_type : Option MetricType) : String :=
  match metric_type with
  | none => ""
  | some m =>
    if is_gpu_index index && m == MetricType.COSINE then MetricType.L2.value
    else m.value

/-- AutoIndexConfig. -/
structure AutoIndexConfig where
  index : IndexType := IndexType.AUTOINDEX
  metric_type : Option MetricType := none

def AutoIndexConfig.parse_metric (c : AutoIndexConfig) : String :=
  Milvus.parse_metric c.index c.metric_type

def AutoIndexConfig.index_param (c : AutoIndexConfig) : List (String × Value) :=
  [("metric_type", Value.str c.parse_metric),
   ("index_type", Value.str c.index.value),
   ("params", Value.dict [])]

def AutoIndexConfig.search_param (c : AutoIndexConfig) : List (String × Value) :=
  [("metric_type", Value.str c.parse_metric)]

/-- HNSWConfig. -/
structure HNSWConfig where
  M : Int
  efConstruction : Int
  ef : Option Int := none
  index : IndexType := IndexType.HNSW
  metric_type : Option MetricType := none

def HNSWConfig.parse_metric (c : HNSWConfig) : String :=
  Milvus.parse_metric c.index c.metric_type

def HNSWConfig.index_param (c : HNSWConfig) : List (String × Value) :=
  [("metric_type", Value.str c.parse_metric),
   ("index_type", Value.str c.index.value),
   ("params", Value.dict [("M", Value.int c.M),
                          ("efConstruction", Value.int c.efConstruction)])]

def HNSWConfig.search_param (c : HNSWConfig) : List (String × Value) :=
  [("metric_type", Value.str c.parse_metric),
   ("params", Value.dict [("ef", Value.ofOptionInt c.ef)])]

/-- DISKANNConfig. -/
structure DISKANNConfig where
  search_list : Option Int := none
  index : IndexType := IndexType.DISKANN
  metric_type : Option MetricType := none

def DISKANNConfig.parse_metric (c : DISKANNConfig) : String :=
  Milvus.parse_metric c.index c.metric_type

def DISKANNConfig.index_param (c : DISKANNConfig) : List (String × Value) :=
  [("metric_type", Value.str c.parse_metric),
   ("index_type", Value.str c.index.value),
   ("params", Value.dict [])]

def DISKANNConfig.search_param (c : DISKANNConfig) : List (String × Value) :=
  [("metric_type", Value.str c.parse_metric),
   ("params", Value.dict [("search_list", Value.ofOptionInt c.search_list)])]

/-- IVFFlatConfig. -/
structure IVFFlatConfig where
  nlist : Int
  nprobe : Option Int := none
  index : IndexType := IndexType.IVFFlat
  metric_type : Option MetricType := none

def IVFFlatConfig.parse_metric (c : IVFFlatConfig) : String :=
  Milvus.parse_metric c.index c.metric_type

def IVFFlatConfig.index_param (c : IVFFlatConfig) : List (String × Value) :=
  [("metric_type", Value.str c.parse_metric),
   ("index_type", Value.str c.index.value),
   ("params", Value.dict [("nlist", Value.int c.nlist)])]

def IVFFlatConfig.search_param (c : IVFFlatConfig) : List (String × Value) :=
  [("metric_type", Value.str c.parse_metric),
   ("params", Value.dict [("nprobe", Value.ofOptionInt c.nprobe)])]

/-- IVFSQ8Config. -/
structure IVFSQ8Config where
  nlist : Int
  nprobe : Option Int := none
  index : IndexType := IndexType.IVFSQ8
  metric_type : Option MetricType := none

def IVFSQ8Config.parse_metric (c : IVFSQ8Config) : String :=
  Milvus.parse_metric c.index c.metric_type

def IVFSQ8Config.index_param (c : IVFSQ8Config) : List (String × Value) :=
  [("metric_type", Value.str c.parse_metric),
   ("index_type", Value.str c.index.value),
   ("params", Value.dict [("nlist", Value.int c.nlist)])]

def IVFSQ8Config.search_param (c : IVFSQ8Config) : List (String × Value) :=
  [("metric_type", Value.str c.parse_metric),
   ("params", Value.dict [("nprobe", Value.ofOptionInt c.nprobe)])]

/-- FLATConfig. -/
structure FLATConfig where
  index : IndexType := IndexType.Flat
  metric_type : Option MetricType := none

def FLATConfig.parse_metric (c : FLATConfig) : String :=
  Milvus.parse_metric c.index c.metric_type

def FLATConfig.index_param (c : FLATConfig) : List (String × Value) :=
  [("metric_type", Value.str c.parse_metric),
   ("index_type", Value.str c.index.value),
   ("params", Value.dict [])]

def FLATConfig.search_param (c : FLATConfig) : List (String × Value) :=
  [("metric_type", Value.str c.parse_metric),
   ("params", Value.dict [])]

/-- GPUIVFFlatConfig. -/
structure GPUIVFFlatConfig where
  nlist : Int := 1024
  nprobe : Int := 64
  cache_dataset_on_device : String
  refine_ratio : Option Rat := none
  index : IndexType := IndexType.GPU_IVF_FLAT
  metric_type : Option MetricType := none

def GPUIVFFlatConfig.parse_metric (c : GPUIVFFlatConfig) : String :=
  Milvus.parse_metric c.index c.metric_type

def GPUIVFFlatConfig.index_param (c : GPUIVFFlatConfig) : List (String × Value) :=
  [("metric_type", Value.str c.parse_metric),
   ("index_type", Value.str c.index.value),
   ("params", Value.dict [("nlist", Value.int c.nlist),
                          ("cache_dataset_on_device",
                            Value.str c.cache_dataset_on_device)])]

def GPUIVFFlatConfig.search_param (c : GPUIVFFlatConfig) : List (String × Value) :=
  [("metric_type", Value.str c.parse_metric),
   ("params", Value.dict [("nprobe", Value.int c.nprobe),
                          ("refine_ratio", Value.ofOptionRat c.refine_ratio)])]

/-- pydantic construction of GPUIVFFlatConfig: cache_dataset_on_device is
required (no default), every other field has a default. -/
def GPUIVFFlatConfig.construct (nlist nprobe : Option Int)
    (cache_dataset_on_device : Option String) (refine_ratio : Option (Option Rat))
    (index : Option IndexType) (metric_type : Option (Option MetricType)) :
    Except ConfigError GPUIVFFlatConfig :=
  match cache_dataset_on_device with
  | none => Except.error (ConfigError.missingRequiredField "cache_dataset_on_device")
  | some cache =>
    Except.ok { nlist := nlist.getD 1024, nprobe := nprobe.getD 64,
                cache_dataset_on_device := cache,
                refine_ratio := refine_ratio.getD none,
                index := index.getD IndexType.GPU_IVF_FLAT,
                metric_type := metric_type.getD none }

/-- GPUBruteForceConfig. Its metric_type field overrides the inherited
optional MetricType with a required plain string, so the inherited
parse_metric behaves differently on it: a falsy (empty) string yields the
empty string, a string equal to the cosine wire value on a GPU family is
forced to L2, and any other string fails (the inherited code reads the
value attribute of the metric, which a plain string does not have). -/
structure GPUBruteForceConfig where
  limit : Int := 10
  metric_type : String
  index : IndexType := IndexType.GPU_BRUTE_FORCE

def GPUBruteForceConfig.parse_metric (c : GPUBruteForceConfig) :
    Except String String :=
  if c.metric_type = "" then Except.ok ""
  else if is_gpu_index c.index && c.metric_type == MetricType.COSINE.value then
    Except.ok MetricType.L2.value
  else Except.error "AttributeError: str object has no attribute value"

def GPUBruteForceConfig.index_param (c : GPUBruteForceConfig) :
    Except String (List (String × Value)) :=
  match c.parse_metric with
  | Except.error e => Except.error e
  | Except.ok m =>
    Except.ok [("metric_type", Value.str m),
               ("index_type", Value.str c.index.value),
               ("params", Value.dict [])]

def GPUBruteForceConfig.search_param (c : GPUBruteForceConfig) :
    Except String (List (String × Value)) :=
  match c.parse_metric with
  | Except.error e => Except.error e
  | Except.ok m =>
    Except.ok [("metric_type", Value.str m),
               ("params", Value.dict [("nprobe", Value.int 1),
                                      ("limit", Value.int c.limit)])]

/-- pydantic construction of GPUBruteForceConfig: metric_type is required,
limit defaults to 10. It has no cache_dataset_on_device field at all, so
no device-cache flag can be required of it. -/
def GPUBruteForceConfig.construct (limit : Option Int) (metric_type : Option String)
    (index : Option IndexType) : Except ConfigError GPUBruteForceConfig :=
  match metric_type with
  | none => Except.error (ConfigError.missingRequiredField "metric_type")
  | some m =>
    Except.ok { limit := limit.getD 10, metric_type := m,
                index := index.getD IndexType.GPU_BRUTE_FORCE }

/-- GPUIVFPQConfig. -/
structure GPUIVFPQConfig where
  nlist : Int := 1024
  m : Int := 0
  nbits : Int := 8
  nprobe : Int := 32
  refine_ratio : Option Rat := none
  cache_dataset_on_device : String
  index : IndexType := IndexType.GPU_IVF_PQ
  metric_type : Option MetricType := none

def GPUIVFPQConfig.parse_metric (c : GPUIVFPQConfig) : String :=
  Milvus.parse_metric c.index c.metric_type

def GPUIVFPQConfig.index_param (c : GPUIVFPQConfig) : List (String × Value) :=
  [("metric_type", Value.str c.parse_metric),
   ("index_type", Value.str c.index.value),
   ("params", Value.dict [("nlist", Value.int c.nlist),
                          ("m", Value.int c.m),
                          ("nbits", Value.int c.nbits),
                          ("cache_dataset_on_device",
                            Value.str c.cache_dataset_on_device)])]

def GPUIVFPQConfig.search_param (c : GPUIVFPQConfig) : List (String × Value) :=
  [("metric_type", Value.str c.parse_metric),
   ("params", Value.dict [("nprobe", Value.int c.nprobe),
                          ("refine_ratio", Value.ofOptionRat c.refine_ratio)])]

/-- pydantic construction of GPUIVFPQConfig: cache_dataset_on_device is
required, every other field has a default. -/
def GPUIVFPQConfig.construct (nlist m nbits nprobe : Option Int)
    (refine_ratio : Option (Option Rat)) (cache_dataset_on_device : Option String)
    (index : Option IndexType) (metric_type : Option (Option MetricType)) :
    Except ConfigError GPUIVFPQConfig :=
  match cache_dataset_on_device with
  | none => Except.error (ConfigError.missingRequiredField "cache_dataset_on_device")
  | some cache =>
    Except.ok { nlist := nlist.getD 1024, m := m.getD 0, nbits := nbits.getD 8,
                nprobe := nprobe.getD 32, refine_ratio := refine_ratio.getD none,
                cache_dataset_on_device := cache,
                index := index.getD IndexType.GPU_IVF_PQ,
                metric_type := metric_type.getD none }

/-- GPUCAGRAConfig. -/
structure GPUCAGRAConfig where
  intermediate_graph_degree : Int := 64
  graph_degree : Int := 32
  itopk_size : Int := 128
  team_size : Int := 0
  search_width : Int := 4
  min_iterations : Int := 0
  max_iterations : Int := 0
  build_algo : String := "IVF_PQ"
  cache_dataset_on_device : String
  refine_ratio : Option Rat := none
  index : IndexType := IndexType.GPU_CAGRA
  metric_type : Option MetricType := none

def GPUCAGRAConfig.parse_metric (c : GPUCAGRAConfig) : String :=
  Milvus.parse_metric c.index c.metric_type

def GPUCAGRAConfig.index_param (c : GPUCAGRAConfig) : List (String × Value) :=
  [("metric_type", Value.str c.parse_metric),
   ("index_type", Value.str c.index.value),
   ("params", Value.dict [("intermediate_graph_degree",
                            Value.int c.intermediate_graph_degree),
                          ("graph_degree", Value.int c.graph_degree),
                          ("build_algo", Value.str c.build_algo),
                          ("cache_dataset_on_device",
                            Value.str c.cache_dataset_on_device)])]

def GPUCAGRAConfig.search_param (c : GPUCAGRAConfig) : List (String × Value) :=
  [("metric_type", Value.str c.parse_metric),
   ("params", Value.dict [("team_size", Value.int c.team_size),
                          ("search_width", Value.int c.search_width),
                          ("itopk_size", Value.int c.itopk_size),
                          ("min_iterations", Value.int c.min_iterations),
                          ("max_iterations", Value.int c.max_iterations),
                          ("refine_ratio", Value.ofOptionRat c.refine_ratio)])]

/-- pydantic construction of GPUCAGRAConfig: cache_dataset_on_device is
required, every other field has a default. -/
def GPUCAGRAConfig.construct
    (intermediate_graph_degree graph_degree itopk_size team_size search_width
      min_iterations max_iterations : Option Int) (build_algo : Option String)
    (cache_dataset_on_device : Option String) (refine_ratio : Option (Option Rat))
    (index : Option IndexType) (metric_type : Option (Option MetricType)) :
    Except ConfigError GPUCAGRAConfig :=
  match cache_dataset_on_device with
  | none => Except.error (ConfigError.missingRequiredField "cache_dataset_on_device")
  | some cache =>
    Except.ok { intermediate_graph_degree := intermediate_graph_degree.getD 64,
                graph_degree := graph_degree.getD 32,
                itopk_size := itopk_size.getD 128,
                team_size := team_size.getD 0,
                search_width := search_width.getD 4,
                min_iterations := min_iterations.getD 0,
                max_iterations := max_iterations.getD 0,
                build_algo := build_algo.getD "IVF_PQ",
                cache_dataset_on_device := cache,
                refine_ratio := refine_ratio.getD none,
                index := index.getD IndexType.GPU_CAGRA,
                metric_type := metric_type.getD none }

/-- The config classes registered in the family registry, one tag per
Index Parameter Config variant. -/
inductive CaseConfigVariant where
  | autoIndex
  | hnsw
  | diskann
  | ivfFlat
  | ivfSQ8
  | flat
  | gpuIvfFlat
  | gpuIvfPQ
  | gpuCagra
  | gpuBruteForce
deriving DecidableEq, BEq, Repr

/-- The family tag each registered variant is responsible for (the fixed
default of its index field). -/
def variantFamilyTag : CaseConfigVariant → IndexType
  | .autoIndex => IndexType.AUTOINDEX
  | .hnsw => IndexType.HNSW
  | .diskann => IndexType.DISKANN
  | .ivfFlat => IndexType.IVFFlat
  | .ivfSQ8 => IndexType.IVFSQ8
  | .flat => IndexType.Flat
  | .gpuIvfFlat => IndexType.GPU_IVF_FLAT
  | .gpuIvfPQ => IndexType.GPU_IVF_PQ
  | .gpuCagra => IndexType.GPU_CAGRA
  | .gpuBruteForce => IndexType.GPU_BRUTE_FORCE

/-- The _milvus_case_config registry dict, in source order. -/
def _milvus_case_config : List (IndexType × CaseConfigVariant) :=
  [(IndexType.AUTOINDEX, CaseConfigVariant.autoIndex),
   (IndexType.HNSW, CaseConfigVariant.hnsw),
   (IndexType.DISKANN, CaseConfigVariant.diskann),
   (IndexType.IVFFlat, CaseConfigVariant.ivfFlat),
   (IndexType.IVFSQ8, CaseConfigVariant.ivfSQ8),
   (IndexType.Flat, CaseConfigVariant.flat),
   (IndexType.GPU_IVF_FLAT, CaseConfigVariant.gpuIvfFlat),
   (IndexType.GPU_IVF_PQ, CaseConfigVariant.gpuIvfPQ),
   (IndexType.GPU_CAGRA, CaseConfigVariant.gpuCagra),
   (IndexType.GPU_BRUTE_FORCE, CaseConfigVariant.gpuBruteForce)]

/-- Registry lookup: Python dict subscription on _milvus_case_config; a
missing key surfaces as the NotSupported-kind lookup failure of the
error taxonomy, a present key returns the registered variant. -/
def registryLookup (t : IndexType) : Except ConfigError CaseConfigVariant :=
  match _milvus_case_config.lookup t with
  | some v => Except.ok v
  | none => Except.error (ConfigError.notSupported t.value)

/-- Query-time-only knobs across the variant catalogue (never legal in a
build-time payload). -/
def queryOnlyKnobs : List String :=
  ["ef", "search_list", "nprobe", "refine_ratio", "team_size", "search_width",
   "itopk_size", "min_iterations", "max_iterations", "limit"]

/-- Build-time-only knobs across the variant catalogue (never legal in a
query-time payload). -/
def buildOnlyKnobs : List String :=
  ["M", "efConstruction", "nlist", "m", "nbits", "cache_dataset_on_device",
   "intermediate_graph_degree", "graph_degree", "build_algo"]

/-- The nested params of a payload contain no key from the banned list. -/
def noKnobsFrom (banned : List String) (d : List (String × Value)) : Prop :=
  (paramsKeys d).all (fun k => !(banned.contains k)) = true

theorem GPUBruteForceConfig.index_param_ok (c : GPUBruteForceConfig)
    (d : List (String × Value)) (h : c.index_param = Except.ok d) :
    ∃ m, c.parse_metric = Except.ok m
      ∧ d = [("metric_type", Value.str m),
             ("index_type", Value.str c.index.value),
             ("params", Value.dict [])] := by
  unfold GPUBruteForceConfig.index_param at h
  cases hp : c.parse_metric with
  | error e => rw [hp] at h; exact Except.noConfusion h
  | ok m =>
    rw [hp] at h
    injection h with h1
    exact ⟨m, rfl, h1.symm⟩

theorem GPUBruteForceConfig.search_param_ok (c : GPUBruteForceConfig)
    (d : List (String × Value)) (h : c.search_param = Except.ok d) :
    ∃ m, c.parse_metric = Except.ok m
      ∧ d = [("metric_type", Value.str m),
             ("params", Value.dict [("nprobe", Value.int 1),
                                    ("limit", Value.int c.limit)])] := by
  unfold GPUBruteForceConfig.search_param at h
  cases hp : c.parse_metric with
  | error e => rw [hp] at h; exact Except.noConfusion h
  | ok m =>
    rw [hp] at h
    injection h with h1
    exact ⟨m, rfl, h1.symm⟩

/-- C1: for every GPU-accelerated family variant (GPU inverted-file, GPU
inverted-file + product quantization, GPU CAGRA graph, GPU brute force)
on which a cosine metric is configured, parse_metric returns the L2
identifier, never COSINE, and this substitution raises no error (for the
GPU brute-force variant, which stores the metric as a raw string, the
result is the successful value L2). -/
theorem C1_gpu_cosine_forced_to_l2 :
    (∀ c : GPUIVFFlatConfig, c.index = IndexType.GPU_IVF_FLAT →
      c.metric_type = some MetricType.COSINE → c.parse_metric = "L2")
    ∧ (∀ c : GPUIVFPQConfig, c.index = IndexType.GPU_IVF_PQ →
      c.metric_type = some MetricType.COSINE → c.parse_metric = "L2")
    ∧ (∀ c : GPUCAGRAConfig, c.index = IndexType.GPU_CAGRA →
      c.metric_type = some MetricType.COSINE → c.parse_metric = "L2")
    ∧ (∀ c : GPUBruteForceConfig, c.index = IndexType.GPU_BRUTE_FORCE →
      c.metric_type = MetricType.COSINE.value → c.parse_metric = Except.ok "L2") := by
  refine ⟨?_, ?_, ?_, ?_⟩
  · intro c h1 h2
    unfold GPUIVFFlatConfig.parse_metric
    rw [h1, h2]; decide
  · intro c h1 h2
    unfold GPUIVFPQConfig.parse_metric
    rw [h1, h2]; decide
  · intro c h1 h2
    unfold GPUCAGRAConfig.parse_metric
    rw [h1, h2]; decide
  · intro c h1 h2
    unfold GPUBruteForceConfig.parse_metric
    rw [h1, h2]; rfl

/-- C1 witness: the theorem applied to one concrete cosine-configured
instance of each GPU variant. -/
theorem C1_gpu_cosine_forced_to_l2_witness :
    ({ cache_dataset_on_device := "true",
       metric_type := some MetricType.COSINE } : GPUIVFFlatConfig).parse_metric = "L2"
    ∧ ({ cache_dataset_on_device := "false",
         metric_type := some MetricType.COSINE } : GPUIVFPQConfig).parse_metric = "L2"
    ∧ ({ cache_dataset_on_device := "true",
         metric_type := some MetricType.COSINE } : GPUCAGRAConfig).parse_metric = "L2"
    ∧ ({ metric_type := "COSINE" } : GPUBruteForceConfig).parse_metric
        = Except.ok "L2" :=
  ⟨C1_gpu_cosine_forced_to_l2.1 _ rfl rfl,
   C1_gpu_cosine_forced_to_l2.2.1 _ rfl rfl,
   C1_gpu_cosine_forced_to_l2.2.2.1 _ rfl rfl,
   C1_gpu_cosine_forced_to_l2.2.2.2 _ rfl rfl⟩

/-- C2: constructing the GPU inverted-file variant with nlist 1024,
nprobe 64, cache_dataset_on_device true and cosine metric succeeds, and
its index_param and search_param render exactly the payloads of the
scenario, with the metric forced to L2. -/
theorem C2_gpu_ivf_flat_scenario :
    ∃ c, GPUIVFFlatConfig.construct (some 1024) (some 64) (some "true") none none
        (some (some MetricType.COSINE)) = Except.ok c
      ∧ c.index_param =
          [("metric_type", Value.str "L2"),
           ("index_type", Value.str "GPU_IVF_FLAT"),
           ("params", Value.dict [("nlist", Value.int 1024),
                                  ("cache_dataset_on_device", Value.str "true")])]
      ∧ c.search_param =
          [("metric_type", Value.str "L2"),
           ("params", Value.dict [("nprobe", Value.int 64),
                                  ("refine_ratio", Value.null)])] :=
  ⟨{ nlist := 1024, nprobe := 64, cache_dataset_on_device := "true",
     refine_ratio := none, index := IndexType.GPU_IVF_FLAT,
     metric_type := some MetricType.COSINE }, rfl, rfl, rfl⟩

/-- C3 counterexample: the GPU brute-force variant has no device-cache
field at all, so constructing it without supplying the device-cache flag
(here: only its metric string) succeeds instead of failing. -/
theorem C3_counterexample_gpu_brute_force_no_cache_flag :
    GPUBruteForceConfig.construct none (some "L2") none
      = Except.ok { limit := 10, metric_type := "L2",
                    index := IndexType.GPU_BRUTE_FORCE } := rfl

/-- C3 amended: of the four GPU-accelerated variants, the three that
declare the device-cache flag (GPU inverted-file, GPU inverted-file +
product quantization, GPU CAGRA graph) fail at construction time with a
MissingRequiredField-kind condition when the flag is not supplied,
whatever else is supplied; the GPU brute-force variant has no
device-cache field, and constructing it without the flag succeeds
whenever its own required knob (the metric string) is supplied. -/
theorem C3_amended_cache_flag_required_except_brute_force :
    (∀ nlist nprobe rr idx mt,
      GPUIVFFlatConfig.construct nlist nprobe none rr idx mt
        = Except.error (ConfigError.missingRequiredField "cache_dataset_on_device"))
    ∧ (∀ nlist m nbits nprobe rr idx mt,
      GPUIVFPQConfig.construct nlist m nbits nprobe rr none idx mt
        = Except.error (ConfigError.missingRequiredField "cache_dataset_on_device"))
    ∧ (∀ igd gd its ts sw mini maxi ba rr idx mt,
      GPUCAGRAConfig.construct igd gd its ts sw mini maxi ba none rr idx mt
        = Except.error (ConfigError.missingRequiredField "cache_dataset_on_device"))
    ∧ (∀ limit m idx,
      GPUBruteForceConfig.construct limit (some m) idx
        = Except.ok { limit := limit.getD 10, metric_type := m,
                      index := idx.getD IndexType.GPU_BRUTE_FORCE }) :=
  ⟨fun _ _ _ _ _ => rfl, fun _ _ _ _ _ _ _ => rfl,
   fun _ _ _ _ _ _ _ _ _ _ _ => rfl, fun _ _ _ => rfl⟩

/-- C5: constructing the connection config with an empty-string endpoint
fails with a ValidationError-kind condition whatever credentials are
supplied, while constructing it with empty-string credential fields
succeeds, because user and password are exempt from the non-empty
rule. -/
theorem C5_empty_uri_rejected_empty_credentials_allowed :
    (∀ user password, MilvusConfig.construct (some "") user password
      = Except.error (ConfigError.validationError "Empty string!"))
    ∧ MilvusConfig.construct (some "http://localhost:19530")
        (some (some "")) (some (some ""))
      = Except.ok { uri := ⟨"http://localhost:19530"⟩,
                    user := some "", password := some ⟨""⟩ } :=
  ⟨fun _ _ => rfl, rfl⟩

/-- C4 counterexample: the automatic-index variant with a configured L2
metric renders a search_param with a single key (only the metric
identifier) and no nested params mapping, so search_param does not
return a mapping with exactly two keys for every variant. -/
theorem C4_counterexample_autoindex_single_key :
    dictKeys ({ metric_type := some MetricType.L2 } : AutoIndexConfig).search_param
      = ["metric_type"]
    ∧ (dictKeys ({ metric_type := some MetricType.L2 }
        : AutoIndexConfig).search_param).length ≠ 2
    ∧ listLookup "params"
        ({ metric_type := some MetricType.L2 } : AutoIndexConfig).search_param
      = none :=
  ⟨rfl, by decide, rfl⟩

/-- C4 amended: for every variant except the automatic-index variant,
search_param renders a mapping with exactly the two keys metric_type and
params, the metric_type value equals the one index_param renders, and
the params value is a nested mapping; the automatic-index variant
renders only the metric_type key (equal to the one of index_param) and
no params. For the GPU brute-force variant this holds of whatever
payloads its search_param and index_param successfully return. -/
theorem C4_amended_search_param_shape :
    (∀ c : AutoIndexConfig, dictKeys c.search_param = ["metric_type"]
      ∧ listLookup "metric_type" c.search_param
          = listLookup "metric_type" c.index_param)
    ∧ (∀ c : HNSWConfig, dictKeys c.search_param = ["metric_type", "params"]
      ∧ listLookup "metric_type" c.search_param
          = listLookup "metric_type" c.index_param
      ∧ ∃ pd, listLookup "params" c.search_param = some (Value.dict pd))
    ∧ (∀ c : DISKANNConfig, dictKeys c.search_param = ["metric_type", "params"]
      ∧ listLookup "metric_type" c.search_param
          = listLookup "metric_type" c.index_param
      ∧ ∃ pd, listLookup "params" c.search_param = some (Value.dict pd))
    ∧ (∀ c : IVFFlatConfig, dictKeys c.search_param = ["metric_type", "params"]
      ∧ listLookup "metric_type" c.search_param
          = listLookup "metric_type" c.index_param
      ∧ ∃ pd, listLookup "params" c.search_param = some (Value.dict pd))
    ∧ (∀ c : IVFSQ8Config, dictKeys c.search_param = ["metric_type", "params"]
      ∧ listLookup "metric_type" c.search_param
          = listLookup "metric_type" c.index_param
      ∧ ∃ pd, listLookup "params" c.search_param = some (Value.dict pd))
    ∧ (∀ c : FLATConfig, dictKeys c.search_param = ["metric_type", "params"]
      ∧ listLookup "metric_type" c.search_param
          = listLookup "metric_type" c.index_param
      ∧ ∃ pd, listLookup "params" c.search_param = some (Value.dict pd))
    ∧ (∀ c : GPUIVFFlatConfig, dictKeys c.search_param = ["metric_type", "params"]
      ∧ listLookup "metric_type" c.search_param
          = listLookup "metric_type" c.index_param
      ∧ ∃ pd, listLookup "params" c.search_param = some (Value.dict pd))
    ∧ (∀ c : GPUIVFPQConfig, dictKeys c.search_param = ["metric_type", "params"]
      ∧ listLookup "metric_type" c.search_param
          = listLookup "metric_type" c.index_param
      ∧ ∃ pd, listLookup "params" c.search_param = some (Value.dict pd))
    ∧ (∀ c : GPUCAGRAConfig, dictKeys c.search_param = ["metric_type", "params"]
      ∧ listLookup "metric_type" c.search_param
          = listLookup "metric_type" c.index_param
      ∧ ∃ pd, listLookup "params" c.search_param = some (Value.dict pd))
    ∧ (∀ (c : GPUBruteForceConfig) (ds : List (String × Value)),
        c.search_param = Except.ok ds →
        dictKeys ds = ["metric_type", "params"]
        ∧ (∃ di, c.index_param = Except.ok di
            ∧ listLookup "metric_type" ds = listLookup "metric_type" di)
        ∧ ∃ pd, listLookup "params" ds = some (Value.dict pd)) := by
  refine ⟨fun c => ⟨rfl, rfl⟩, fun c => ⟨rfl, rfl, _, rfl⟩, fun c => ⟨rfl, rfl, _, rfl⟩,
    fun c => ⟨rfl, rfl, _, rfl⟩, fun c => ⟨rfl, rfl, _, rfl⟩, fun c => ⟨rfl, rfl, _, rfl⟩,
    fun c => ⟨rfl, rfl, _, rfl⟩, fun c => ⟨rfl, rfl, _, rfl⟩, fun c => ⟨rfl, rfl, _, rfl⟩,
    ?_⟩
  intro c ds h
  obtain ⟨m, hm, hds⟩ := GPUBruteForceConfig.search_param_ok c ds h
  subst hds
  refine ⟨rfl,
    ⟨[("metric_type", Value.str m), ("index_type", Value.str c.index.value),
      ("params", Value.dict [])], ?_, rfl⟩, _, rfl⟩
  unfold GPUBruteForceConfig.index_param
  rw [hm]

/-- C4 witness: the amended theorem applied to a concrete GPU brute-force
instance whose search_param succeeds. -/
theorem C4_amended_search_param_shape_witness :
    dictKeys [("metric_type", Value.str "L2"),
              ("params", Value.dict [("nprobe", Value.int 1),
                                     ("limit", Value.int 10)])]
      = ["metric_type", "params"]
    ∧ (∃ di, ({ metric_type := "COSINE" } : GPUBruteForceConfig).index_param
          = Except.ok di
        ∧ listLookup "metric_type"
            [("metric_type", Value.str "L2"),
             ("params", Value.dict [("nprobe", Value.int 1),
                                    ("limit", Value.int 10)])]
          = listLookup "metric_type" di)
    ∧ ∃ pd, listLookup "params"
        [("metric_type", Value.str "L2"),
         ("params", Value.dict [("nprobe", Value.int 1),
                                ("limit", Value.int 10)])]
      = some (Value.dict pd) :=
  C4_amended_search_param_shape.2.2.2.2.2.2.2.2.2
    { metric_type := "COSINE" } _ rfl

/-- C6: looking an unregistered index family up in the family registry
fails with the NotSupported-kind condition, and looking any registered
family up returns the variant whose fixed family tag is that family. -/
theorem C6_registry_lookup :
    registryLookup IndexType.ES_HNSW
      = Except.error (ConfigError.notSupported "hnsw")
    ∧ (∀ t, t ≠ IndexType.ES_HNSW →
        ∃ v, registryLookup t = Except.ok v ∧ variantFamilyTag v = t) := by
  refine ⟨rfl, ?_⟩
  intro t ht
  cases t <;> first
    | exact absurd rfl ht
    | exact ⟨_, rfl, rfl⟩

/-- C6 witness: the theorem applied to the registered GPU CAGRA family. -/
theorem C6_registry_lookup_witness :
    ∃ v, registryLookup IndexType.GPU_CAGRA = Except.ok v
      ∧ variantFamilyTag v = IndexType.GPU_CAGRA :=
  C6_registry_lookup.2 IndexType.GPU_CAGRA (by decide)

/-- C7: for every variant, the nested params of index_param contain no
query-time-only knob and the nested params of search_param contain no
build-time-only knob; for the GPU brute-force variant this holds of
whatever payloads its index_param and search_param successfully
return. -/
theorem C7_no_cross_phase_knobs :
    (∀ c : AutoIndexConfig, noKnobsFrom queryOnlyKnobs c.index_param
      ∧ noKnobsFrom buildOnlyKnobs c.search_param)
    ∧ (∀ c : HNSWConfig, noKnobsFrom queryOnlyKnobs c.index_param
      ∧ noKnobsFrom buildOnlyKnobs c.search_param)
    ∧ (∀ c : DISKANNConfig, noKnobsFrom queryOnlyKnobs c.index_param
      ∧ noKnobsFrom buildOnlyKnobs c.search_param)
    ∧ (∀ c : IVFFlatConfig, noKnobsFrom queryOnlyKnobs c.index_param
      ∧ noKnobsFrom buildOnlyKnobs c.search_param)
    ∧ (∀ c : IVFSQ8Config, noKnobsFrom queryOnlyKnobs c.index_param
      ∧ noKnobsFrom buildOnlyKnobs c.search_param)
    ∧ (∀ c : FLATConfig, noKnobsFrom queryOnlyKnobs c.index_param
      ∧ noKnobsFrom buildOnlyKnobs c.search_param)
    ∧ (∀ c : GPUIVFFlatConfig, noKnobsFrom queryOnlyKnobs c.index_param
      ∧ noKnobsFrom buildOnlyKnobs c.search_param)
    ∧ (∀ c : GPUIVFPQConfig, noKnobsFrom queryOnlyKnobs c.index_param
      ∧ noKnobsFrom buildOnlyKnobs c.search_param)
    ∧ (∀ c : GPUCAGRAConfig, noKnobsFrom queryOnlyKnobs c.index_param
      ∧ noKnobsFrom buildOnlyKnobs c.search_param)
    ∧ (∀ (c : GPUBruteForceConfig) (di ds : List (String × Value)),
        c.index_param = Except.ok di → c.search_param = Except.ok ds →
        noKnobsFrom queryOnlyKnobs di ∧ noKnobsFrom buildOnlyKnobs ds) := by
  refine ⟨fun c => ⟨rfl, rfl⟩, fun c => ⟨rfl, rfl⟩, fun c => ⟨rfl, rfl⟩,
    fun c => ⟨rfl, rfl⟩, fun c => ⟨rfl, rfl⟩, fun c => ⟨rfl, rfl⟩,
    fun c => ⟨rfl, rfl⟩, fun c => ⟨rfl, rfl⟩, fun c => ⟨rfl, rfl⟩, ?_⟩
  intro c di ds hi hs
  obtain ⟨mi, hmi, hdi⟩ := GPUBruteForceConfig.index_param_ok c di hi
  obtain ⟨ms, hms, hds⟩ := GPUBruteForceConfig.search_param_ok c ds hs
  subst hdi
  subst hds
  exact ⟨rfl, rfl⟩

/-- C7 witness: the theorem applied to a concrete GPU brute-force
instance whose payload functions succeed. -/
theorem C7_no_cross_phase_knobs_witness :
    noKnobsFrom queryOnlyKnobs
      [("metric_type", Value.str "L2"),
       ("index_type", Value.str "GPU_BRUTE_FORCE"),
       ("params", Value.dict [])]
    ∧ noKnobsFrom buildOnlyKnobs
      [("metric_type", Value.str "L2"),
       ("params", Value.dict [("nprobe", Value.int 1),
                              ("limit", Value.int 10)])] :=
  C7_no_cross_phase_knobs.2.2.2.2.2.2.2.2.2
    { metric_type := "COSINE" } _ _ rfl rfl

/-- C8: for every variant on which no distance metric is configured,
parse_metric returns the empty string; for the GPU brute-force variant,
whose metric field is a required raw string, the falsy unconfigured
value (the empty string) likewise yields the empty string. -/
theorem C8_unset_metric_yields_empty_string :
    (∀ c : AutoIndexConfig, c.metric_type = none → c.parse_metric = "")
    ∧ (∀ c : HNSWConfig, c.metric_type = none → c.parse_metric = "")
    ∧ (∀ c : DISKANNConfig, c.metric_type = none → c.parse_metric = "")
    ∧ (∀ c : IVFFlatConfig, c.metric_type = none → c.parse_metric = "")
    ∧ (∀ c : IVFSQ8Config, c.metric_type = none → c.parse_metric = "")
    ∧ (∀ c : FLATConfig, c.metric_type = none → c.parse_metric = "")
    ∧ (∀ c : GPUIVFFlatConfig, c.metric_type = none → c.parse_metric = "")
    ∧ (∀ c : GPUIVFPQConfig, c.metric_type = none → c.parse_metric = "")
    ∧ (∀ c : GPUCAGRAConfig, c.metric_type = none → c.parse_metric = "")
    ∧ (∀ c : GPUBruteForceConfig, c.metric_type = "" →
        c.parse_metric = Except.ok "") := by
  refine ⟨?_, ?_, ?_, ?_, ?_, ?_, ?_, ?_, ?_, ?_⟩
  · intro c h; unfold AutoIndexConfig.parse_metric; rw [h]; rfl
  · intro c h; unfold HNSWConfig.parse_metric; rw [h]; rfl
  · intro c h; unfold DISKANNConfig.parse_metric; rw [h]; rfl
  · intro c h; unfold IVFFlatConfig.parse_metric; rw [h]; rfl
  · intro c h; unfold IVFSQ8Config.parse_metric; rw [h]; rfl
  · intro c h; unfold FLATConfig.parse_metric; rw [h]; rfl
  · intro c h; unfold GPUIVFFlatConfig.parse_metric; rw [h]; rfl
  · intro c h; unfold GPUIVFPQConfig.parse_metric; rw [h]; rfl
  · intro c h; unfold GPUCAGRAConfig.parse_metric; rw [h]; rfl
  · intro c h; unfold GPUBruteForceConfig.parse_metric; rw [h]; rfl

/-- C8 witness: the theorem applied to one metric-free instance of each
variant. -/
theorem C8_unset_metric_yields_empty_string_witness :
    ({} : AutoIndexConfig).parse_metric = ""
    ∧ ({ M := 16, efConstruction := 200 } : HNSWConfig).parse_metric = ""
    ∧ ({} : DISKANNConfig).parse_metric = ""
    ∧ ({ nlist := 128 } : IVFFlatConfig).parse_metric = ""
    ∧ ({ nlist := 128 } : IVFSQ8Config).parse_metric = ""
    ∧ ({} : FLATConfig).parse_metric = ""
    ∧ ({ cache_dataset_on_device := "true" } : GPUIVFFlatConfig).parse_metric = ""
    ∧ ({ cache_dataset_on_device := "true" } : GPUIVFPQConfig).parse_metric = ""
    ∧ ({ cache_dataset_on_device := "true" } : GPUCAGRAConfig).parse_metric = ""
    ∧ ({ metric_type := "" } : GPUBruteForceConfig).parse_metric = Except.ok "" :=
  ⟨C8_unset_metric_yields_empty_string.1 _ rfl,
   C8_unset_metric_yields_empty_string.2.1 _ rfl,
   C8_unset_metric_yields_empty_string.2.2.1 _ rfl,
   C8_unset_metric_yields_empty_string.2.2.2.1 _ rfl,
   C8_unset_metric_yields_empty_string.2.2.2.2.1 _ rfl,
   C8_unset_metric_yields_empty_string.2.2.2.2.2.1 _ rfl,
   C8_unset_metric_yields_empty_string.2.2.2.2.2.2.1 _ rfl,
   C8_unset_metric_yields_empty_string.2.2.2.2.2.2.2.1 _ rfl,
   C8_unset_metric_yields_empty_string.2.2.2.2.2.2.2.2.1 _ rfl,
   C8_unset_metric_yields_empty_string.2.2.2.2.2.2.2.2.2 _ rfl⟩

/-- C9: to_dict renders the uri entry as the raw unwrapped secret string,
and renders the user and password entries as None both when the field is
absent and when it holds an empty string (an empty-string credential is
normalized to the not-set marker). -/
theorem C9_to_dict_normalizes_empty_credentials :
    ∀ c : MilvusConfig,
      listLookup "uri" c.to_dict = some (Value.str c.uri.get_secret_value)
      ∧ ((c.user = none ∨ c.user = some "") →
          listLookup "user" c.to_dict = some Value.null)
      ∧ ((c.password = none ∨ c.password = some ⟨""⟩) →
          listLookup "password" c.to_dict = some Value.null) := by
  intro c
  refine ⟨rfl, ?_, ?_⟩
  · rintro (h | h) <;>
      { show some (match c.user with
          | some s => if s.length == 0 then Value.null else Value.str s
          | none => Value.null) = some Value.null
        rw [h]
        try rfl }
  · rintro (h | h) <;>
      { show some (match c.password with
          | some p => if p.secret.length == 0 then Value.null
                      else Value.str p.get_secret_value
          | none => Value.null) = some Value.null
        rw [h]
        try rfl }

/-- C9 witness: the theorem applied to a concrete config holding
empty-string credentials. -/
theorem C9_to_dict_normalizes_empty_credentials_witness :
    listLookup "uri"
        ({ uri := ⟨"http://localhost:19530"⟩, user := some "",
           password := some ⟨""⟩ } : MilvusConfig).to_dict
      = some (Value.str "http://localhost:19530")
    ∧ listLookup "user"
        ({ uri := ⟨"http://localhost:19530"⟩, user := some "",
           password := some ⟨""⟩ } : MilvusConfig).to_dict
      = some Value.null
    ∧ listLookup "password"
        ({ uri := ⟨"http://localhost:19530"⟩, user := some "",
           password := some ⟨""⟩ } : MilvusConfig).to_dict
      = some Value.null :=
  ⟨(C9_to_dict_normalizes_empty_credentials _).1,
   (C9_to_dict_normalizes_empty_credentials _).2.1 (Or.inr rfl),
   (C9_to_dict_normalizes_empty_credentials _).2.2 (Or.inr rfl)⟩

/-- C10: for every variant with an optional query-time knob, leaving the
knob unconfigured still renders the corresponding key in the nested
params of search_param, with the value None, rather than omitting the
key. -/
theorem C10_unset_optional_knob_renders_null :
    (∀ c : HNSWConfig, c.ef = none →
      listLookup "ef" (paramsOf c.search_param) = some Value.null)
    ∧ (∀ c : DISKANNConfig, c.search_list = none →
      listLookup "search_list" (paramsOf c.search_param) = some Value.null)
    ∧ (∀ c : IVFFlatConfig, c.nprobe = none →
      listLookup "nprobe" (paramsOf c.search_param) = some Value.null)
    ∧ (∀ c : IVFSQ8Config, c.nprobe = none →
      listLookup "nprobe" (paramsOf c.search_param) = some Value.null)
    ∧ (∀ c : GPUIVFFlatConfig, c.refine_ratio = none →
      listLookup "refine_ratio" (paramsOf c.search_param) = some Value.null)
    ∧ (∀ c : GPUIVFPQConfig, c.refine_ratio = none →
      listLookup "refine_ratio" (paramsOf c.search_param) = some Value.null)
    ∧ (∀ c : GPUCAGRAConfig, c.refine_ratio = none →
      listLookup "refine_ratio" (paramsOf c.search_param) = some Value.null) := by
  refine ⟨?_, ?_, ?_, ?_, ?_, ?_, ?_⟩
  · intro c h
    show some (Value.ofOptionInt c.ef) = some Value.null
    rw [h]; rfl
  · intro c h
    show some (Value.ofOptionInt c.search_list) = some Value.null
    rw [h]; rfl
  · intro c h
    show some (Value.ofOptionInt c.nprobe) = some Value.null
    rw [h]; rfl
  · intro c h
    show some (Value.ofOptionInt c.nprobe) = some Value.null
    rw [h]; rfl
  · intro c h
    show some (Value.ofOptionRat c.refine_ratio) = some Value.null
    rw [h]; rfl
  · intro c h
    show some (Value.ofOptionRat c.refine_ratio) = some Value.null
    rw [h]; rfl
  · intro c h
    show some (Value.ofOptionRat c.refine_ratio) = some Value.null
    rw [h]; rfl

/-- C10 witness: the theorem applied to one instance of each variant with
its optional knob left unset. -/
theorem C10_unset_optional_knob_renders_null_witness :
    listLookup "ef"
        (paramsOf ({ M := 16, efConstruction := 200 } : HNSWConfig).search_param)
      = some Value.null
    ∧ listLookup "search_list"
        (paramsOf ({} : DISKANNConfig).search_param) = some Value.null
    ∧ listLookup "nprobe"
        (paramsOf ({ nlist := 128 } : IVFFlatConfig).search_param)
      = some Value.null
    ∧ listLookup "nprobe"
        (paramsOf ({ nlist := 128 } : IVFSQ8Config).search_param)
      = some Value.null
    ∧ listLookup "refine_ratio"
        (paramsOf ({ cache_dataset_on_device := "true" }
          : GPUIVFFlatConfig).search_param) = some Value.null
    ∧ listLookup "refine_ratio"
        (paramsOf ({ cache_dataset_on_device := "true" }
          : GPUIVFPQConfig).search_param) = some Value.null
    ∧ listLookup "refine_ratio"
        (paramsOf ({ cache_dataset_on_device := "true" }
          : GPUCAGRAConfig).search_param) = some Value.null :=
  ⟨C10_unset_optional_knob_renders_null.1 _ rfl,
   C10_unset_optional_knob_renders_null.2.1 _ rfl,
   C10_unset_optional_knob_renders_null.2.2.1 _ rfl,
   C10_unset_optional_knob_renders_null.2.2.2.1 _ rfl,
   C10_unset_optional_knob_renders_null.2.2.2.2.1 _ rfl,
   C10_unset_optional_knob_renders_null.2.2.2.2.2.1 _ rfl,
   C10_unset_optional_knob_renders_null.2.2.2.2.2.2 _ rfl⟩

end Milvus
